import Mathlib

/-!
Verification development for the memeooorr behaviour classes
(`chain.py`, `twitter.py` under `packages/dvilela/skills/memeooorr_abci`).

The Python code is shallowly embedded: JSON/Python values become the
inductive `JsonVal`, raising Python code becomes `Except String`,
the persistent key-value store becomes an association list threaded
through every behaviour, and every external collaborator (contract API,
social API, LLM, clock) becomes a field of an environment record.
Calls of `store_heart` that the source makes without `yield from`
create a generator that is never iterated, so they are embedded as
no-ops on the state (see the comments at those call sites).
-/

namespace Memeo

/-- Values produced by deserializing JSON, and more generally the Python
values the embedded code manipulates.  Floats do not occur in the code
paths under study and are not modelled. -/
inductive JsonVal where
  | jnull : JsonVal
  | jbool : Bool → JsonVal
  | jint : Int → JsonVal
  | jstr : String → JsonVal
  | jarr : List JsonVal → JsonVal
  | jobj : List (String × JsonVal) → JsonVal

mutual

/-- Computable size of a value (used as recursion fuel: it strictly
bounds the nesting depth). -/
def jsonSize : JsonVal → Nat
  | .jnull => 1
  | .jbool _ => 1
  | .jint _ => 1
  | .jstr _ => 1
  | .jarr xs => 1 + jsonSizeL xs
  | .jobj fs => 1 + jsonSizeF fs

/-- Size of a list of values. -/
def jsonSizeL : List JsonVal → Nat
  | [] => 0
  | x :: xs => 1 + jsonSize x + jsonSizeL xs

/-- Size of an association list of values. -/
def jsonSizeF : List (String × JsonVal) → Nat
  | [] => 0
  | (_, v) :: fs => 1 + jsonSize v + jsonSizeF fs

end

/-- Python truthiness of a value (`if not x`). -/
def pyTruthy : JsonVal → Bool
  | .jnull => false
  | .jbool b => b
  | .jint n => n != 0
  | .jstr s => s != ""
  | .jarr xs => !xs.isEmpty
  | .jobj fs => !fs.isEmpty

/-- Helper for `pyRepr`: fuel-driven rendering (fuel is instantiated with
`jsonSize`, which strictly bounds the recursion depth). -/
def pyReprF : Nat → JsonVal → String
  | 0, _ => ""
  | _ + 1, .jnull => "None"
  | _ + 1, .jbool true => "True"
  | _ + 1, .jbool false => "False"
  | _ + 1, .jint n => toString n
  | _ + 1, .jstr s => "\x27" ++ s ++ "\x27"
  | fuel + 1, .jarr xs =>
      "[" ++ String.intercalate ", " (xs.map (pyReprF fuel)) ++ "]"
  | fuel + 1, .jobj fs =>
      "\x7b" ++
        String.intercalate ", "
          (fs.map (fun f => "\x27" ++ f.1 ++ "\x27: " ++ pyReprF fuel f.2)) ++
        "\x7d"

/-- Python `repr` of a value (quote escaping inside strings is not modelled;
it never occurs on the inputs under study). -/
def pyRepr (v : JsonVal) : String := pyReprF (jsonSize v) v

/-- Python `str()` of a value. -/
def pyStr : JsonVal → String
  | .jstr s => s
  | v => pyRepr v

/-- Python `v == s` for a string literal `s`: equality across types is
always `False` in Python, so only `jstr` can match. -/
def pyEqValStr (v : JsonVal) (s : String) : Bool :=
  match v with
  | .jstr t => t == s
  | _ => false

/-- Python `d[k]` subscription: `KeyError` on a missing key and
`TypeError` on a non-dict value. -/
def pyGetItem (v : JsonVal) (k : String) : Except String JsonVal :=
  match v with
  | .jobj fs =>
      match fs.lookup k with
      | some w => .ok w
      | none => .error ("KeyError: " ++ k)
  | _ => .error ("TypeError: value is not subscriptable with key " ++ k)

/-- Python `d.get(k, default)`: `AttributeError` on non-dict values. -/
def pyDotGetD (v : JsonVal) (k : String) (default : JsonVal) : Except String JsonVal :=
  match v with
  | .jobj fs => .ok ((fs.lookup k).getD default)
  | _ => .error "AttributeError: object has no attribute get"

/-- Python `d.get(k, None)`. -/
def pyDotGet (v : JsonVal) (k : String) : Except String JsonVal :=
  pyDotGetD v k .jnull

/-- Python `for x in v`: lists yield elements, dicts yield their keys,
strings yield one-character strings; other values raise `TypeError`. -/
def pyIter : JsonVal → Except String (List JsonVal)
  | .jarr xs => .ok xs
  | .jobj fs => .ok (fs.map (fun f => .jstr f.1))
  | .jstr s => .ok (s.data.map (fun c => .jstr (String.mk [c])))
  | _ => .error "TypeError: object is not iterable"

/-- Decimal digits of a candidate integer literal. -/
def digitsToNat : List Char → Option Nat
  | [] => none
  | ds =>
      if ds.all (fun c => 48 ≤ c.toNat && c.toNat ≤ 57) then
        some (ds.foldl (fun acc c => 10 * acc + (c.toNat - 48)) 0)
      else none

/-- The whitespace characters recognised by `int()` and the JSON
decoder. -/
def wsChars : List Char := [' ', '\n', '\t', '\r']

/-- Whitespace test. -/
def isWsChar (c : Char) : Bool := wsChars.contains c

/-- Python `int(s)` on a string: optional surrounding whitespace, optional
sign, decimal digits; anything else raises `ValueError`.  (Underscore
digit separators are not modelled.) -/
def pyIntOfString (s : String) : Except String Int :=
  let t := (((s.data.dropWhile isWsChar).reverse).dropWhile isWsChar).reverse
  match t with
  | '-' :: ds =>
      match digitsToNat ds with
      | some n => .ok (-(n : Int))
      | none => .error "ValueError: invalid literal for int"
  | '+' :: ds =>
      match digitsToNat ds with
      | some n => .ok (n : Int)
      | none => .error "ValueError: invalid literal for int"
  | ds =>
      match digitsToNat ds with
      | some n => .ok (n : Int)
      | none => .error "ValueError: invalid literal for int"

/-- Python `int(v)` on a decoded JSON value. -/
def pyToInt : JsonVal → Except String Int
  | .jint n => .ok n
  | .jbool b => .ok (if b then 1 else 0)
  | .jstr s => pyIntOfString s
  | _ => .error "TypeError: int() argument must be a string or a number"

/-- Python `n == x` for an integer `n` against a decoded value
(`True == 1` in Python, so booleans compare as 0/1). -/
def pyEqIntVal (n : Int) : JsonVal → Bool
  | .jint m => n == m
  | .jbool b => n == (if b then (1 : Int) else 0)
  | _ => false

/-- Python `n in v` for an integer `n`: lists test element equality, dicts
test key equality (never an int here), everything else raises
`TypeError`. -/
def pyMemInt (n : Int) : JsonVal → Except String Bool
  | .jarr xs => .ok (xs.any (pyEqIntVal n))
  | .jobj _ => .ok false
  | _ => .error "TypeError: argument of wrong type for in"

/- ## The `json` module: `loads` and `dumps` (the fragment the code uses) -/

/-- Skip JSON whitespace. -/
def skipWs : List Char → List Char
  | c :: rest => if isWsChar c then skipWs rest else c :: rest
  | [] => []

/-- The string-escape table of the JSON fragment in use: escape letter
to escaped character.  (The `\u` form never occurs in the inputs under
study and is not modelled: it would make a decode fail that Python
accepts.) -/
def escTable : List (Char × Char) :=
  [('"', '"'), ('\\', '\\'), ('/', '/'), ('n', '\n'), ('t', '\t'), ('r', '\r')]

/-- One JSON string-escape character, via the table. -/
def escChar (c : Char) : Option Char := List.lookup c escTable

/-- Parse the body of a JSON string literal (the opening quote already
consumed); returns the characters and the rest of the input. -/
def parseStrChars : List Char → Option (List Char × List Char)
  | [] => none
  | '"' :: rest => some ([], rest)
  | '\\' :: e :: rest =>
      match escChar e with
      | some c =>
          match parseStrChars rest with
          | some (cs, r) => some (c :: cs, r)
          | none => none
      | none => none
  | c :: rest =>
      match parseStrChars rest with
      | some (cs, r) => some (c :: cs, r)
      | none => none

/-- Consume a run of decimal digits. -/
def takeDigits : List Char → (List Char × List Char)
  | [] => ([], [])
  | c :: rest =>
      if 48 ≤ c.toNat && c.toNat ≤ 57 then
        let (ds, r) := takeDigits rest
        (c :: ds, r)
      else ([], c :: rest)

/-- Parse a JSON integer (floats are not modelled: a fractional part makes
the surrounding decode fail, which is conservative for the inputs under
study). -/
def parseIntLit (s : List Char) : Option (JsonVal × List Char) :=
  match s with
  | '-' :: rest =>
      let (ds, r) := takeDigits rest
      match digitsToNat ds with
      | some n => some (.jint (-(n : Int)), r)
      | none => none
  | _ =>
      let (ds, r) := takeDigits s
      match digitsToNat ds with
      | some n => some (.jint (n : Int), r)
      | none => none

/-- Match a literal character list at the head, returning the remainder. -/
def matchLit : List Char → List Char → Option (List Char)
  | [], s => some s
  | _, [] => none
  | p :: ps, c :: cs => if c == p then matchLit ps cs else none

/-- Keyword of the null literal. -/
def litNull : List Char := "null".data

/-- Keyword of the true literal. -/
def litTrue : List Char := "true".data

/-- Keyword of the false literal. -/
def litFalse : List Char := "false".data

mutual

/-- Fuel-driven JSON value parser (fuel strictly exceeds any possible
nesting, see `jsonLoads`). -/
def parseVal : Nat → List Char → Option (JsonVal × List Char)
  | 0, _ => none
  | fuel + 1, s =>
      match skipWs s with
      | [] => none
      | '"' :: r =>
          match parseStrChars r with
          | some (cs, rest) => some (.jstr (String.mk cs), rest)
          | none => none
      | '[' :: r =>
          (match skipWs r with
           | ']' :: rest => some (.jarr [], rest)
           | r2 => match parseItems fuel r2 with
                   | some (xs, rest) => some (.jarr xs, rest)
                   | none => none)
      | '\x7b' :: r =>
          (match skipWs r with
           | '\x7d' :: rest => some (.jobj [], rest)
           | r2 => match parseFields fuel r2 with
                   | some (fs, rest) => some (.jobj fs, rest)
                   | none => none)
      | s2 =>
          (match matchLit litNull s2 with
           | some r => some (.jnull, r)
           | none =>
           match matchLit litTrue s2 with
           | some r => some (.jbool true, r)
           | none =>
           match matchLit litFalse s2 with
           | some r => some (.jbool false, r)
           | none => parseIntLit s2)

/-- Parse one-or-more comma-separated JSON values followed by `]`. -/
def parseItems : Nat → List Char → Option (List JsonVal × List Char)
  | 0, _ => none
  | fuel + 1, s =>
      match parseVal fuel s with
      | some (v, r) =>
          (match skipWs r with
           | ',' :: r2 =>
               match parseItems fuel r2 with
               | some (xs, rest) => some (v :: xs, rest)
               | none => none
           | ']' :: rest => some ([v], rest)
           | _ => none)
      | none => none

/-- Parse one-or-more comma-separated `"key": value` pairs followed by
a closing brace. -/
def parseFields : Nat → List Char → Option (List (String × JsonVal) × List Char)
  | 0, _ => none
  | fuel + 1, s =>
      match skipWs s with
      | '"' :: r =>
          (match parseStrChars r with
           | some (kcs, r2) =>
               (match skipWs r2 with
                | ':' :: r3 =>
                    (match parseVal fuel r3 with
                     | some (v, r4) =>
                         (match skipWs r4 with
                          | ',' :: r5 =>
                              (match parseFields fuel r5 with
                               | some (fs, rest) => some ((String.mk kcs, v) :: fs, rest)
                               | none => none)
                          | '\x7d' :: rest => some ([(String.mk kcs, v)], rest)
                          | _ => none)
                     | none => none)
                | _ => none)
           | none => none)
      | _ => none

end

/-- Python `json.loads`: decode the whole string or fail. -/
def jsonLoads (s : String) : Option JsonVal :=
  match parseVal (4 * (s.length + 1)) s.data with
  | some (v, r) => if (skipWs r).isEmpty then some v else none
  | none => none

/-- Insertion of an association by ascending key (for `sort_keys=True`). -/
def insertField (x : String × JsonVal) :
    List (String × JsonVal) → List (String × JsonVal)
  | [] => [x]
  | y :: ys => if y.1 ≤ x.1 then y :: insertField x ys else x :: y :: ys

/-- Stable sort of object fields by key (Python `sort_keys=True`). -/
def sortFieldsByKey (fs : List (String × JsonVal)) : List (String × JsonVal) :=
  fs.foldl (fun acc x => insertField x acc) []

/-- Minimal JSON string escaping used by `dumps`. -/
def escapeJStr (s : String) : String :=
  String.join (s.data.map (fun c =>
    if c == '"' then "\\\""
    else if c == '\\' then "\\\\"
    else if c == '\n' then "\\n"
    else if c == '\t' then "\\t"
    else if c == '\r' then "\\r"
    else String.mk [c]))

/-- Helper for `json_dumps`: fuel-driven (fuel instantiated with
`jsonSize`, which strictly bounds the recursion depth). -/
def jsonDumpsF : Nat → Bool → JsonVal → String
  | 0, _, _ => ""
  | _ + 1, _, .jnull => "null"
  | _ + 1, _, .jbool true => "true"
  | _ + 1, _, .jbool false => "false"
  | _ + 1, _, .jint n => toString n
  | _ + 1, _, .jstr s => "\"" ++ escapeJStr s ++ "\""
  | fuel + 1, sortKeys, .jarr xs =>
      "[" ++ String.intercalate ", " (xs.map (jsonDumpsF fuel sortKeys)) ++ "]"
  | fuel + 1, sortKeys, .jobj fs =>
      let fs2 := if sortKeys then sortFieldsByKey fs else fs
      "\x7b" ++
        String.intercalate ", "
          (fs2.map (fun f =>
            "\"" ++ escapeJStr f.1 ++ "\": " ++ jsonDumpsF fuel sortKeys f.2)) ++
        "\x7d"

/-- Python `json.dumps` with default separators; the flag is
`sort_keys`. -/
def json_dumps (sortKeys : Bool) (v : JsonVal) : String :=
  jsonDumpsF (jsonSize v) sortKeys v

/- ## The regex patterns of `parse_json_from_llm` (twitter.py)

`JSON_RESPONSE_REGEXES = [r"json.?(\x7b.*\x7d)", r"json(\x7b.*\x7d)",
r"```json(.*)```"]`, searched with `re.DOTALL`.  Each searcher below
implements Python's leftmost search with greedy backtracking for its
specific pattern. -/

/-- Index of the last occurrence of a character. -/
def lastIdxOf (c : Char) : List Char → Option Nat
  | [] => none
  | x :: rest =>
      match lastIdxOf c rest with
      | some k => some (k + 1)
      | none => if x == c then some 0 else none

/-- Greedy match of the group `(\x7b.*\x7d)` at the head of the input:
an opening brace, then everything up to the last closing brace. -/
def braceGroup : List Char → Option (List Char)
  | '\x7b' :: rest =>
      match lastIdxOf '\x7d' rest with
      | some k => some ('\x7b' :: rest.take (k + 1))
      | none => none
  | _ => none

/-- The part of pattern 1 after the literal `json`: `.?` greedily consumes
one character first, then backtracks to zero. -/
def pat1At (t : List Char) : Option (List Char) :=
  match t with
  | _ :: t2 =>
      match braceGroup t2 with
      | some g => some g
      | none => braceGroup t
  | [] => braceGroup t

/-- Leftmost search for pattern 1, `json.?(\x7b.*\x7d)`. -/
def searchPat1 : List Char → Option (List Char)
  | [] => none
  | s@(_ :: rest) =>
      match matchLit ['j', 's', 'o', 'n'] s with
      | some t =>
          (match pat1At t with
           | some g => some g
           | none => searchPat1 rest)
      | none => searchPat1 rest

/-- Leftmost search for pattern 2, `json(\x7b.*\x7d)`. -/
def searchPat2 : List Char → Option (List Char)
  | [] => none
  | s@(_ :: rest) =>
      match matchLit ['j', 's', 'o', 'n'] s with
      | some t =>
          (match braceGroup t with
           | some g => some g
           | none => searchPat2 rest)
      | none => searchPat2 rest

/-- Largest index at which three consecutive backticks start (the greedy
backtracking position of the closing fence). -/
def lastTicksAt : List Char → Option Nat
  | [] => none
  | s@(_ :: rest) =>
      match lastTicksAt rest with
      | some k => some (k + 1)
      | none =>
          if (matchLit ['\x60', '\x60', '\x60'] s).isSome then some 0 else none

/-- Leftmost search for pattern 3, a fenced ```json block. -/
def searchPat3 : List Char → Option (List Char)
  | [] => none
  | s@(_ :: rest) =>
      match matchLit ['\x60', '\x60', '\x60', 'j', 's', 'o', 'n'] s with
      | some t =>
          (match lastTicksAt t with
           | some p => some (t.take p)
           | none => searchPat3 rest)
      | none => searchPat3 rest

/-- Try one extraction pattern: if the regex matches, decode the captured
group; a decode failure falls through to the next pattern (source lines
52-61 of twitter.py). -/
def tryPat (search : List Char → Option (List Char)) (response : String) :
    Option JsonVal :=
  match search response.data with
  | some g => jsonLoads (String.mk g)
  | none => none

/-- `parse_json_from_llm` (twitter.py lines 50-62): try the three patterns
in order and return the first successfully decoded JSON, else `None`. -/
def parse_json_from_llm (response : String) : Option JsonVal :=
  match tryPat searchPat1 response with
  | some v => some v
  | none =>
      match tryPat searchPat2 response with
      | some v => some v
      | none => tryPat searchPat3 response

/- ## Persistent key-value store and external-call traces -/

/-- The persisted key-value store (string keys to string values). -/
def Kv : Type := List (String × String)

/-- Read one key. -/
def kvGet (kv : Kv) (k : String) : Option String :=
  (List.lookup k kv)

/-- Write one key (update in place or append). -/
def kvSet : Kv → String → String → Kv
  | [], k, v => [(k, v)]
  | (k0, v0) :: rest, k, v =>
      if k0 == k then (k, v) :: rest else (k0, v0) :: kvSet rest k v

/-- One external side-effecting social call issued by the engagement
engine, recorded with the arguments the source passes.  Read-only
collaborator calls (user-tweet fetches, the LLM, the subgraph) are
modelled as environment functions and are not traced. -/
inductive ExtCall where
  | likeCall (tweetId : JsonVal)
  | retweetCall (tweetId : JsonVal)
  | followCall (userId : JsonVal)
  | respondCall (tweetId : JsonVal) (text : JsonVal) (isQuote : Bool)
      (userName : Option String)
  | postCall (texts : List JsonVal)

/-- Mutable state threaded through a behaviour: the persisted store plus
the trace of external side-effecting calls made so far. -/
structure St where
  kv : Kv
  trace : List ExtCall

/-- Tweet ids an external call acts on, as the strings the source passes
(`str` is applied where the source compares against dict keys). -/
def callTweetTargets : ExtCall → List String
  | .likeCall t => [pyStr t]
  | .retweetCall t => [pyStr t]
  | .followCall t => [pyStr t]
  | .respondCall t _ _ _ => [pyStr t]
  | .postCall _ => []

/-- Whether a call interacts with an existing tweet (a fresh top-level
post does not). -/
def isInteractionCall : ExtCall → Bool
  | .postCall _ => false
  | _ => true

/-- Result of `_read_kv(keys=(k,))`: `none` models a store-level read
failure, `some v` the per-key value (which may itself be absent). -/
def readKvKey (readFails : Bool) (kv : Kv) (k : String) : Option (Option String) :=
  if readFails then none else some (kvGet kv k)

/-- The shared load pattern of `store_heart` (chain.py lines 120-127) and
`EngageTwitterBehaviour.get_event` (twitter.py lines 296-302):
`json.loads(db_data[key] or "[]")` behind an `if db_data is None`
store-failure fallback to the empty list.  A store failure or a
missing/empty value yields `[]`; a malformed non-empty value makes
`json.loads` raise. -/
def loadIdList (readResult : Option (Option String)) : Except String JsonVal :=
  match readResult with
  | none => .ok (.jarr [])
  | some v =>
      let s := match v with
               | none => "[]"
               | some s0 => if s0 == "" then "[]" else s0
      match jsonLoads s with
      | some j => .ok j
      | none => .error "json.decoder.JSONDecodeError"

/- ## twitter.py: data and environment -/

/-- The latest-tweet record returned by the social collaborator
(`get_user_tweets`): the fields the source reads. -/
structure FetchedTweet where
  id : String
  text : String
  user_name : String

/-- The value stored in the `pending_tweets` map (twitter.py lines
322-325). -/
structure PendingTweet where
  text : String
  user_name : String

/-- External collaborators of the twitter behaviours.  Success flags and
returned ids are oracles keyed by the exact arguments the source
passes. -/
structure TwitterEnv where
  skip_engagement : Bool
  handles : List String
  filterSuspended : List String → List String
  userTweets : String → Option (List FetchedTweet)
  kvReadFails : Bool
  persona : String
  llm : Option String
  likeOk : JsonVal → Bool
  retweetOk : JsonVal → Bool
  followOk : JsonVal → Bool
  postResult : List JsonVal → Option (List String)
  respondResult : JsonVal → JsonVal → Bool → Option (List String)
  weightedLength : String → Nat
  timestamp : Int
  searchResult : Option (List JsonVal)

/-- Modelled from the spec: `get_tweets_from_db` lives in the base
behaviour class, which is not under src/.  Per the spec (§3 Tweet log,
§4.1 Dedup Ledger) loading a persisted collection yields the empty
default on a store-level failure, a missing value, or a deserialization
failure, and the tweet log is a JSON list under the key `tweets`. -/
def get_tweets_from_db (env : TwitterEnv) (kv : Kv) : List JsonVal :=
  if env.kvReadFails then []
  else
    match kvGet kv "tweets" with
    | none => []
    | some s =>
        match jsonLoads s with
        | some (.jarr l) => l
        | _ => []

/-- `store_tweet` (twitter.py lines 75-85): append one tweet record (or
extend with a list of them) and write the log back. -/
def store_tweet (env : TwitterEnv) (tweet : JsonVal) (st : St) :
    Except String Bool × St :=
  let tweets := get_tweets_from_db env st.kv
  let tweets2 := match tweet with
                 | .jarr l => tweets ++ l
                 | t => tweets ++ [t]
  (.ok true, ⟨kvSet st.kv "tweets" (json_dumps false (.jarr tweets2)), st.trace⟩)

/-- `post_tweet` (twitter.py lines 87-114): post the texts through the
social collaborator; a falsy id list is a total failure (`None`); on
success build the `latest_tweet` record (whose `text` field is the whole
list, as in the source) and store it when asked. -/
def post_tweet (env : TwitterEnv) (tweet : List JsonVal) (store : Bool) (st : St) :
    Except String (Option JsonVal) × St :=
  let st1 : St := ⟨st.kv, st.trace ++ [.postCall tweet]⟩
  match env.postResult tweet with
  | none => (.ok none, st1)
  | some [] => (.ok none, st1)
  | some (id0 :: _) =>
      let latest : JsonVal :=
        .jobj [("tweet_id", .jstr id0), ("text", .jarr tweet),
               ("timestamp", .jint env.timestamp)]
      if store then
        match store_tweet env latest st1 with
        | (.ok _, st2) => (.ok (some latest), st2)
        | (.error e, st2) => (.error e, st2)
      else (.ok (some latest), st1)

/-- `respond_tweet` (twitter.py lines 116-135): one post carrying either
a `reply_to` or a quote `attachment_url`; the returned truthiness of the
id list is the success flag. -/
def respond_tweet (env : TwitterEnv) (tweet_id : JsonVal) (text : JsonVal)
    (quote : Bool) (user_name : Option String) (st : St) :
    Except String Bool × St :=
  let st1 : St := ⟨st.kv, st.trace ++ [.respondCall tweet_id text quote user_name]⟩
  match env.respondResult tweet_id text quote with
  | none => (.ok false, st1)
  | some ids => (.ok (!ids.isEmpty), st1)

/-- `like_tweet` (twitter.py lines 137-142). -/
def like_tweet (env : TwitterEnv) (tweet_id : JsonVal) (st : St) :
    Except String Bool × St :=
  (.ok (env.likeOk tweet_id), ⟨st.kv, st.trace ++ [.likeCall tweet_id]⟩)

/-- `retweet` (twitter.py lines 144-149). -/
def retweet (env : TwitterEnv) (tweet_id : JsonVal) (st : St) :
    Except String Bool × St :=
  (.ok (env.retweetOk tweet_id), ⟨st.kv, st.trace ++ [.retweetCall tweet_id]⟩)

/-- `follow_user` (twitter.py lines 151-156): note the parameter is a
`user_id`, forwarded verbatim to the social collaborator. -/
def follow_user (env : TwitterEnv) (user_id : JsonVal) (st : St) :
    Except String Bool × St :=
  (.ok (env.followOk user_id), ⟨st.kv, st.trace ++ [.followCall user_id]⟩)

/-- `MAX_TWEET_CHARS` (twitter.py line 45). -/
def MAX_TWEET_CHARS : Nat := 280

/-- `is_tweet_valid` (twitter.py lines 65-67).  Modelled from the spec
for the external `twitter_text.parse_tweet` weighting: the environment
supplies the platform weighted length (spec §4.4, Glossary). -/
def is_tweet_valid (env : TwitterEnv) (tweet : String) : Bool :=
  env.weightedLength tweet ≤ MAX_TWEET_CHARS

/-- Modelled from the spec: the `Event` enumeration lives in rounds.py,
which is not under src/; the spec names the engagement outcome events
DONE and ERROR, surfaced as event strings (§4.4, §7). -/
def EVENT_DONE : String := "done"

/-- Modelled from the spec: see `EVENT_DONE`. -/
def EVENT_ERROR : String := "error"

/-- Keys of the pending-tweets map, in insertion order. -/
def pendingKeys (pending : List (String × PendingTweet)) : List String :=
  pending.map (·.1)

/-- Python dict assignment `d[k] = v`: replace in place or append. -/
def dictSet : List (String × PendingTweet) → String → PendingTweet →
    List (String × PendingTweet)
  | [], k, v => [(k, v)]
  | (k0, v0) :: rest, k, v =>
      if k0 == k then (k, v) :: rest else (k0, v0) :: dictSet rest k v

/-- One iteration of the decision loop of `interact_twitter`
(twitter.py lines 393-451): handle a single decision entry, returning
the updated `new_interacted_tweet_ids` accumulator. -/
def interactStep (env : TwitterEnv) (pending : List (String × PendingTweet))
    (e : JsonVal) (acc : List JsonVal) (st : St) :
    Except String (List JsonVal) × St :=
  match pyDotGet e "tweet_id" with
  | .error err => (.error err, st)
  | .ok tweet_id =>
  match pyDotGet e "action" with
  | .error err => (.error err, st)
  | .ok action =>
  match pyDotGet e "text" with
  | .error err => (.error err, st)
  | .ok text =>
  if pyEqValStr action "none" then (.ok acc, st)
  else if !pyEqValStr action "tweet" &&
          !(pendingKeys pending).contains (pyStr tweet_id) then
    (.ok acc, st)
  else
    -- the randomized `sleep` delay has no observable effect here
    if pyEqValStr action "tweet" then
      match post_tweet env [text] true st with
      | (.error err, st1) => (.error err, st1)
      | (.ok _, st1) => (.ok acc, st1)
    else
      match (List.lookup (pyStr tweet_id) pending) with
      | none => (.error "KeyError: pending_tweets", st)
      | some pt =>
        let user_name := pt.user_name
        if pyEqValStr action "like" then
          match like_tweet env tweet_id st with
          | (.error err, st1) => (.error err, st1)
          | (.ok liked, st1) =>
              (.ok (if liked then acc ++ [tweet_id] else acc), st1)
        else if pyEqValStr action "follow" then
          -- the source passes the TWEET id as the user id here
          match follow_user env tweet_id st with
          | (.error err, st1) => (.error err, st1)
          | (.ok followed, st1) =>
              (.ok (if followed then acc ++ [tweet_id] else acc), st1)
        else if pyEqValStr action "retweet" then
          match retweet env tweet_id st with
          | (.error err, st1) => (.error err, st1)
          | (.ok retweeted, st1) =>
              (.ok (if retweeted then acc ++ [tweet_id] else acc), st1)
        else
          match text with
          | .jstr ts =>
              if !is_tweet_valid env ts then (.ok acc, st)
              else if pyEqValStr action "reply" then
                match respond_tweet env tweet_id text false none st with
                | (.error err, st1) => (.error err, st1)
                | (.ok responded, st1) =>
                    (.ok (if responded then acc ++ [tweet_id] else acc), st1)
              else if pyEqValStr action "quote" then
                match respond_tweet env tweet_id text true (some user_name) st with
                | (.error err, st1) => (.error err, st1)
                | (.ok quoted, st1) =>
                    (.ok (if quoted then acc ++ [tweet_id] else acc), st1)
              else (.ok acc, st)
          | _ => (.error "TypeError: parse_tweet expects a string", st)

/-- The decision loop of `interact_twitter` (twitter.py lines 393-452):
one pass over the parsed decision entries, accumulating the
`new_interacted_tweet_ids` list. -/
def interactLoop (env : TwitterEnv) (pending : List (String × PendingTweet)) :
    List JsonVal → List JsonVal → St → Except String (String × List JsonVal) × St
  | [], acc, st => (.ok (EVENT_DONE, acc), st)
  | e :: rest, acc, st =>
      match interactStep env pending e acc st with
      | (.error err, st1) => (.error err, st1)
      | (.ok acc1, st1) => interactLoop env pending rest acc1 st1

/-- `interact_twitter` (twitter.py lines 346-452).  The persona, the last
five own tweets and the prompt template feed only the LLM collaborator,
whose reply is the `llm` oracle; a missing reply or an unparseable /
falsy parse yields the error event with no ids. -/
def interact_twitter (env : TwitterEnv) (pending : List (String × PendingTweet))
    (st : St) : Except String (String × List JsonVal) × St :=
  match env.llm with
  | none => (.ok (EVENT_ERROR, []), st)
  | some llm_response =>
      match parse_json_from_llm llm_response with
      | none => (.ok (EVENT_ERROR, []), st)
      | some json_response =>
          if !pyTruthy json_response then (.ok (EVENT_ERROR, []), st)
          else
            match pyIter json_response with
            | .error err => (.error err, st)
            | .ok entries => interactLoop env pending entries [] st

/-- The candidate-collection loop of `get_event` (twitter.py lines
304-325): keep at most the latest tweet per handle, skipping handles
without tweets and tweets whose integer id is already interacted. -/
def buildPending (env : TwitterEnv) (interacted : JsonVal) :
    List String → List (String × PendingTweet) →
    Except String (List (String × PendingTweet))
  | [], acc => .ok acc
  | h :: hs, acc =>
      match env.userTweets h with
      | none => buildPending env interacted hs acc
      | some [] => buildPending env interacted hs acc
      | some (t :: _) =>
          match pyIntOfString t.id with
          | .error e => .error e
          | .ok n =>
              match pyMemInt n interacted with
              | .error e => .error e
              | .ok true => buildPending env interacted hs acc
              | .ok false =>
                  buildPending env interacted hs (dictSet acc t.id ⟨t.text, t.user_name⟩)

/-- `EngageTwitterBehaviour.get_event` (twitter.py lines 278-344): load
the interacted-ids ledger, build the pending map, run the interaction
pass, and persist the extended ledger only on the done event. -/
def get_event (env : TwitterEnv) (st : St) : Except String String × St :=
  if env.skip_engagement then (.ok EVENT_DONE, st)
  else
    let agent_handles := env.filterSuspended env.handles
    match loadIdList (readKvKey env.kvReadFails st.kv "interacted_tweet_ids") with
    | .error e => (.error e, st)
    | .ok interacted =>
        match buildPending env interacted agent_handles [] with
        | .error e => (.error e, st)
        | .ok pending =>
            match interact_twitter env pending st with
            | (.error e, st1) => (.error e, st1)
            | (.ok (event, newIds), st1) =>
                if event == EVENT_DONE then
                  match interacted with
                  | .jarr l =>
                      (.ok event,
                       ⟨kvSet st1.kv "interacted_tweet_ids"
                          (json_dumps true (.jarr (l ++ newIds))), st1.trace⟩)
                  | _ => (.error "AttributeError: object has no attribute extend", st1)
                else (.ok event, st1)

/-- The engagement-weighted score of one reply record
(twitter.py lines 243-245): `int(t.get(key, 0) or 0)` per counter. -/
def counterOf (t : JsonVal) (key : String) : Except String Int :=
  match pyDotGetD t key (.jint 0) with
  | .error e => .error e
  | .ok raw => pyToInt (if pyTruthy raw then raw else .jint 0)

/-- Score of one reply record: `views + 3*retweets + 5*quotes`. -/
def feedbackScore (t : JsonVal) : Except String Int :=
  match counterOf t "view_count" with
  | .error e => .error e
  | .ok v =>
      match counterOf t "retweet_count" with
      | .error e => .error e
      | .ok r =>
          match counterOf t "quote_count" with
          | .error e => .error e
          | .ok q => .ok (v + 3 * r + 5 * q)

/-- Score every record; Python's `sorted` evaluates the key function on
every element before comparing, so one bad record aborts the call. -/
def scoreAll : List JsonVal → Except String (List (Int × JsonVal))
  | [] => .ok []
  | t :: ts =>
      match feedbackScore t with
      | .error e => .error e
      | .ok s =>
          match scoreAll ts with
          | .error e => .error e
          | .ok rest => .ok ((s, t) :: rest)

/-- The descending-score order used by the ranking. -/
def scoreGE (a b : Int × JsonVal) : Prop := b.1 ≤ a.1

instance : DecidableRel scoreGE := fun a b => inferInstanceAs (Decidable (b.1 ≤ a.1))

instance : IsTotal (Int × JsonVal) scoreGE := ⟨fun a b => le_total b.1 a.1⟩

instance : IsTrans (Int × JsonVal) scoreGE := ⟨fun _ _ _ h1 h2 => le_trans h2 h1⟩

/-- Stable descending sort by score.  Python `sorted(key=..., reverse=True)`
is a stable sort by the reversed key order; a stable sort is uniquely
determined by its order, so insertion sort computes the same list. -/
def sortDescStable (l : List (Int × JsonVal)) : List (Int × JsonVal) :=
  List.insertionSort scoreGE l

/-- The ranking core of `get_feedback` (twitter.py lines 240-251): sort
by descending weighted score and keep the top 10. -/
def rank_feedback (feedback : List JsonVal) : Except String (List JsonVal) :=
  match scoreAll feedback with
  | .error e => .error e
  | .ok scored => .ok (((sortDescStable scored).map (·.2)).take 10)

/-- `CollectFeedbackBehaviour.get_feedback` (twitter.py lines 215-253):
no own tweets yet or no matching replies give `[]`; a search API error
gives `None`; otherwise rank the replies. -/
def get_feedback (env : TwitterEnv) (st : St) :
    Except String (Option (List JsonVal)) × St :=
  let tweets := get_tweets_from_db env st.kv
  if tweets.isEmpty then (.ok (some []), st)
  else
    match tweets.getLast? with
    | none => (.ok (some []), st)
    | some latest =>
        match pyGetItem latest "tweet_id" with
        | .error e => (.error e, st)
        | .ok _ =>
            match env.searchResult with
            | none => (.ok none, st)
            | some [] => (.ok (some []), st)
            | some feedback =>
                match rank_feedback feedback with
                | .error e => (.error e, st)
                | .ok ranked => (.ok (some ranked), st)

/- ## chain.py: data and environment -/

/-- The contract-API response performatives the code distinguishes. -/
inductive Performative where
  | state
  | rawTransaction
  | other
  deriving DecidableEq

/-- Response of the safe contract to `get_raw_safe_transaction_hash`:
the body value under `tx_hash` (`none` models both an absent key and an
explicit `None`). -/
structure SafeHashResp where
  perf : Performative
  txHash : Option JsonVal

/-- Response of the meme-factory contract to a `build_<action>_tx` call:
the raw-transaction body value under `data` (bytes, modelled as a list
of byte values). -/
structure FactoryTxResp where
  perf : Performative
  dataBytes : Option (List Nat)

/-- Response of the meme-factory contract to `get_token_data`: the state
body value under `token_nonce` (`jnull` models an absent key). -/
structure TokenDataResp where
  perf : Performative
  tokenNonce : JsonVal

/-- External collaborators and synchronized data of the chain
behaviours. -/
structure ChainEnv where
  kvReadFails : Bool
  token_action : JsonVal
  final_tx_hash : Option String
  safe_contract_address : String
  meme_factory_address : String
  factoryResp : String → List (String × JsonVal) → FactoryTxResp
  safeResp : String → Int → List Nat → SafeHashResp
  tokenResp : TokenDataResp

/-- `SAFE_GAS` (chain.py line 50). -/
def SAFE_GAS : Int := 0

/-- `ZERO_VALUE` (chain.py line 51). -/
def ZERO_VALUE : Int := 0

/-- Modelled from the spec: `TX_HASH_LENGTH` is imported from the
transaction-settlement package, which is not under src/; the spec calls
it the fixed expected length of the returned hash string, a
chain-specific constant (§4.3 step 4, §8 Safe-hash shape). -/
def TX_HASH_LENGTH : Nat := 66

/-- Hex digit for a nibble. -/
def hexDigit (n : Nat) : Char :=
  if n < 10 then Char.ofNat (48 + n) else Char.ofNat (87 + n)

/-- Python `bytes.hex()`: two lowercase hex digits per byte. -/
def bytesToHex (bs : List Nat) : String :=
  String.mk (bs.foldr (fun b acc => hexDigit (b % 256 / 16) :: hexDigit (b % 256 % 16) :: acc) [])

/-- Value of a hex digit (only ever applied to `bytesToHex` output). -/
def hexVal (c : Char) : Nat :=
  if 48 ≤ c.toNat && c.toNat ≤ 57 then c.toNat - 48
  else if 97 ≤ c.toNat && c.toNat ≤ 102 then c.toNat - 87
  else 0

/-- Python `bytes.fromhex` on well-formed lowercase hex input. -/
def bytesFromHex : List Char → List Nat
  | c1 :: c2 :: rest => (16 * hexVal c1 + hexVal c2) :: bytesFromHex rest
  | _ => []

/-- Modelled from the spec: `hash_payload_to_hex` is imported from the
transaction-settlement package, which is not under src/; the spec
describes it as a deterministic, order-sensitive encoding combining the
stripped hash with `value`, `safe_tx_gas = 0`, `to_address` and `data`
(§4.3 step 4). -/
def hash_payload_to_hex (safe_tx_hash : String) (ether_value : Int)
    (safe_tx_gas : Int) (to_address : String) (data : List Nat) : String :=
  safe_tx_hash ++ "|" ++ toString ether_value ++ "|" ++ toString safe_tx_gas ++
    "|" ++ to_address ++ "|" ++ bytesToHex data

/-- `ChainBehaviour._build_safe_tx_hash` (chain.py lines 59-116): a wrong
response performative or a missing hash or a hash of the wrong length
returns `None`; otherwise the `0x` prefix is stripped and the fields are
combined by `hash_payload_to_hex`. -/
def _build_safe_tx_hash_result (env : ChainEnv) (to_address : String)
    (value : Int) (data : List Nat) : Except String (Option String) :=
  let response_msg := env.safeResp to_address value data
  if response_msg.perf ≠ Performative.state then .ok none
  else
    match response_msg.txHash with
    | none => .ok none
    | some h =>
        match h with
        | .jstr s =>
            if s.length ≠ TX_HASH_LENGTH then .ok none
            else
              .ok (some (hash_payload_to_hex (s.drop 2) value SAFE_GAS
                     to_address data))
        | _ => .error "TypeError: object of wrong type has no len"

/-- State-passing wrapper: the function performs no store write, so the
state is returned untouched. -/
def _build_safe_tx_hash (env : ChainEnv) (to_address : String) (value : Int)
    (data : List Nat) (st : St) : Except String (Option String) × St :=
  (_build_safe_tx_hash_result env to_address value data, st)

/-- `ChainBehaviour.store_heart` (chain.py lines 118-134): load the
hearted-memes ledger, append the nonce, write it back.  This is the
body that runs when the generator is actually iterated with
`yield from` — which never happens in chain.py (lines 332 and 376 call
it without `yield from`). -/
def store_heart (env : ChainEnv) (token_nonce : JsonVal) (st : St) :
    Except String Unit × St :=
  match loadIdList (readKvKey env.kvReadFails st.kv "hearted_memes") with
  | .error e => (.error e, st)
  | .ok hearted =>
      match hearted with
      | .jarr l =>
          (.ok (),
           ⟨kvSet st.kv "hearted_memes" (json_dumps true (.jarr (l ++ [token_nonce]))),
            st.trace⟩)
      | _ => (.error "AttributeError: object has no attribute append", st)

/-- The routing block of `get_tx_hash` (chain.py lines 263-278): the
contract-callable name `build_<action>_tx` and the keyword arguments
accumulated by the three consecutive `if action in [...]` blocks. -/
def route_token_action (token_action : JsonVal) :
    Except String (JsonVal × String × List (String × JsonVal)) :=
  match pyGetItem token_action "action" with
  | .error e => .error e
  | .ok action =>
      let contract_callable := "build_" ++ pyStr action ++ "_tx"
      match ((if pyEqValStr action "summon" then
               match pyGetItem token_action "token_name" with
               | .error e => .error e
               | .ok nm =>
                   match pyGetItem token_action "token_ticker" with
                   | .error e => .error e
                   | .ok tk =>
                       match pyGetItem token_action "token_supply" with
                       | .error e => .error e
                       | .ok sup =>
                           match pyToInt sup with
                           | .error e => .error e
                           | .ok s =>
                               .ok [("token_name", nm), ("token_ticker", tk),
                                    ("token_supply", JsonVal.jint s)]
             else .ok []) : Except String (List (String × JsonVal))) with
      | .error e => .error e
      | .ok k1 =>
          match ((if pyEqValStr action "heart" || pyEqValStr action "unleash" then
                   match pyGetItem token_action "token_nonce" with
                   | .error e => .error e
                   | .ok nonce => .ok (k1 ++ [("meme_nonce", nonce)])
                 else .ok k1) : Except String (List (String × JsonVal))) with
          | .error e => .error e
          | .ok k2 =>
              match ((if pyEqValStr action "collect" || pyEqValStr action "purge" then
                       match pyGetItem token_action "token_address" with
                       | .error e => .error e
                       | .ok addr => .ok (k2 ++ [("meme_address", addr)])
                     else .ok k2) : Except String (List (String × JsonVal))) with
              | .error e => .error e
              | .ok k3 => .ok (action, contract_callable, k3)

/-- `get_token_nonce` (chain.py lines 379-401): a wrong performative
yields `None`, otherwise the `token_nonce` body value. -/
def get_token_nonce (env : ChainEnv) : JsonVal :=
  if env.tokenResp.perf ≠ Performative.state then .jnull
  else env.tokenResp.tokenNonce

/-- The summon branch of `post_action` (chain.py lines 349-373),
embedded for fidelity although the guard `token_action == "summon"`
can only be reached with a string-valued `token_action`: read the
`tokens` key, append the token record, write it under
`summoned_tokens`. -/
def summonBlock (env : ChainEnv) (token_nonce : JsonVal) (st : St) :
    Except String Unit × St :=
  let dbRead := readKvKey env.kvReadFails st.kv "tokens"
  match ((match dbRead with
         | none => .ok []
         | some none => .ok []
         | some (some s) =>
             if s == "" then .ok []
             else
               match jsonLoads s with
               | some (.jarr l) => .ok l
               | some _ => Except.error "AttributeError: object has no attribute append"
               | none => Except.error "json.decoder.JSONDecodeError") : Except String (List JsonVal)) with
  | .error e => (.error e, st)
  | .ok tokens =>
      let token_action := env.token_action
      match pyGetItem token_action "token_name" with
      | .error e => (.error e, st)
      | .ok nm =>
          match pyGetItem token_action "token_ticker" with
          | .error e => (.error e, st)
          | .ok tk =>
              match pyGetItem token_action "total_supply" with
              | .error e => (.error e, st)
              | .ok tsup =>
                  match pyToInt tsup with
                  | .error e => (.error e, st)
                  | .ok ts =>
                      let token_data : JsonVal :=
                        .jobj [("token_name", nm), ("token_ticker", tk),
                               ("total_supply", .jint ts), ("token_nonce", token_nonce)]
                      (.ok (),
                       ⟨kvSet st.kv "summoned_tokens"
                          (json_dumps true (.jarr (tokens ++ [token_data]))),
                        st.trace⟩)

/-- `ActionPreparationBehaviour.post_action` (chain.py lines 336-377).
Both guards compare the whole `token_action` value with a string
(`token_action == "summon"`, `token_action in ["summon", "heart"]`),
and the second branch calls `store_heart` without `yield from`, leaving
the generator un-iterated. -/
def post_action (env : ChainEnv) (st : St) : Except String Unit × St :=
  let token_action := env.token_action
  let token_nonce := get_token_nonce env
  -- the log line interpolates token_action["action"], which can raise
  match pyGetItem token_action "action" with
  | .error e => (.error e, st)
  | .ok _ =>
      if !pyTruthy token_nonce then (.ok (), st)
      else
        match (if pyEqValStr token_action "summon" then
                 summonBlock env token_nonce st
               else (.ok (), st)) with
        | (.error e, st1) => (.error e, st1)
        | (.ok _, st1) =>
            if pyEqValStr token_action "summon" || pyEqValStr token_action "heart" then
              -- `self.store_heart(token_nonce)` without `yield from`:
              -- the generator is created and discarded, nothing runs
              (.ok (), st1)
            else (.ok (), st1)

/-- `ActionPreparationBehaviour.get_tx_hash` (chain.py lines 250-334):
run `post_action` when a final hash already exists; otherwise route the
token action, fetch the raw transaction, and build the safe hash.  The
heart-branch bookkeeping call `self.store_heart(...)` (line 332) lacks
`yield from`, so its generator is discarded and nothing is persisted. -/
def get_tx_hash (env : ChainEnv) (st : St) : Except String (Option String) × St :=
  match env.final_tx_hash with
  | some _ =>
      (match post_action env st with
       | (.error e, st1) => (.error e, st1)
       | (.ok _, st1) => (.ok (some ""), st1))
  | none =>
      if !pyTruthy env.token_action then (.ok none, st)
      else
        match route_token_action env.token_action with
        | .error e => (.error e, st)
        | .ok (action, contract_callable, kwargs) =>
            let response_msg := env.factoryResp contract_callable kwargs
            if response_msg.perf ≠ Performative.rawTransaction then (.ok none, st)
            else
              match response_msg.dataBytes with
              | none => (.ok none, st)
              | some data_bytes =>
                  let data_hex := bytesToHex data_bytes
                  -- the source's `if data_hex is None` check can never fire
                  match ((if !(pyEqValStr action "summon" || pyEqValStr action "heart")
                         then .ok ZERO_VALUE
                         else
                           match pyGetItem env.token_action "amount" with
                           | .error e => .error e
                           | .ok am => pyToInt am) : Except String Int) with
                  | .error e => (.error e, st)
                  | .ok value =>
                      match _build_safe_tx_hash env env.meme_factory_address value
                              (bytesFromHex data_hex.data) st with
                      | (.error e, st1) => (.error e, st1)
                      | (.ok safe_tx_hash, st1) =>
                          if pyEqValStr action "heart" then
                            -- `self.store_heart(token_action["token_nonce"])`
                            -- without `yield from`: generator discarded,
                            -- no state change
                            (.ok safe_tx_hash, st1)
                          else (.ok safe_tx_hash, st1)

/- ## Concrete scenario environments used by the theorems -/

/-- A social environment for concrete engagement scenarios: no store
failures, persona "degen bot", every social call succeeds, the LLM reply
is the given text. -/
def envScenario (llmText : String) : TwitterEnv :=
  ⟨false, ["alice"], fun hs => hs, fun _ => none, false, "degen bot",
   some llmText, fun _ => true, fun _ => true, fun _ => true,
   fun _ => some ["900"], fun _ _ _ => some ["901"],
   fun s => s.length, 0, none⟩

/-- The pending-tweets map of the spec's end-to-end scenario: tweet 111,
text "gm", by user alice. -/
def pendingC3 : List (String × PendingTweet) := [("111", ⟨"gm", "alice"⟩)]

/-- The spec's end-to-end LLM reply, exactly as the claim writes it. -/
def llmReplyPlain : String :=
  "json[\x7b\"tweet_id\":\"111\",\"action\":\"like\"\x7d]"

/-- The same decision list inside a fenced ```json block. -/
def llmReplyFenced : String :=
  "```json\n[\x7b\"tweet_id\": \"111\", \"action\": \"like\"\x7d]\n```"

/-- A well-formed 66-character transaction hash returned by the safe
contract in concrete scenarios. -/
def hash66 : String :=
  "0xaaaaaaaaaaaaaaaaaaaaaaaaaaaaaaaaaaaaaaaaaaaaaaaaaaaaaaaaaaaaaaaa"

/-- The heart token action of the C1 scenario. -/
def taHeart : JsonVal :=
  .jobj [("action", .jstr "heart"), ("token_nonce", .jint 7),
         ("amount", .jstr "100")]

/-- Chain environment of the C1 scenario: a heart action being prepared
(no final hash yet), with both contract collaborators answering
correctly. -/
def envC1 : ChainEnv :=
  ⟨false, taHeart, none, "safeaddr", "factory",
   fun _ _ => ⟨.rawTransaction, some [1, 2]⟩,
   fun _ _ _ => ⟨.state, some (.jstr hash66)⟩,
   ⟨.state, .jnull⟩⟩

/-- The summon token action of the C2 scenario. -/
def taSummon : JsonVal :=
  .jobj [("action", .jstr "summon"), ("token_name", .jstr "Meme"),
         ("token_ticker", .jstr "MEME"), ("token_supply", .jint 1000),
         ("total_supply", .jint 1000), ("amount", .jint 0)]

/-- Chain environment of the C2 scenario: the summon transaction has a
final on-chain hash and the deployment event yields nonce 5, so
`post_action` runs. -/
def envC2 : ChainEnv :=
  ⟨false, taSummon, some "0xfinal", "safeaddr", "factory",
   fun _ _ => ⟨.rawTransaction, some [1, 2]⟩,
   fun _ _ _ => ⟨.state, some (.jstr hash66)⟩,
   ⟨.state, .jint 5⟩⟩

/-- The safe collaborator answering with a wrong performative. -/
def envC6wrong : ChainEnv :=
  ⟨false, .jnull, none, "safe", "factory",
   fun _ _ => ⟨.other, none⟩, fun _ _ _ => ⟨.other, none⟩, ⟨.other, .jnull⟩⟩

/-- The safe collaborator answering with a valid-hex hash of the wrong
length. -/
def envC6short : ChainEnv :=
  ⟨false, .jnull, none, "safe", "factory",
   fun _ _ => ⟨.other, none⟩, fun _ _ _ => ⟨.state, some (.jstr "0xabcdef")⟩,
   ⟨.other, .jnull⟩⟩

/-- The safe collaborator answering with a 66-character hash. -/
def envC6good : ChainEnv :=
  ⟨false, .jnull, none, "safe", "factory",
   fun _ _ => ⟨.other, none⟩, fun _ _ _ => ⟨.state, some (.jstr hash66)⟩,
   ⟨.other, .jnull⟩⟩

/-- The membership-search kv state used in the feedback scenarios: one
own tweet with id 1 in the tweet log. -/
def stC7 : St := ⟨[("tweets", "[\x7b\"tweet_id\": \"1\"\x7d]")], []⟩

/-- The search collaborator returning one reply whose view counter is a
non-numeric string. -/
def envC7bad : TwitterEnv :=
  ⟨false, [], fun hs => hs, fun _ => none, false, "degen bot", none,
   fun _ => true, fun _ => true, fun _ => true, fun _ => some ["900"],
   fun _ _ _ => some ["901"], fun s => s.length, 0,
   some [.jobj [("view_count", .jstr "lots")]]⟩

/-- The search collaborator returning two well-formed replies with
scores 1 and 6. -/
def envC7good : TwitterEnv :=
  ⟨false, [], fun hs => hs, fun _ => none, false, "degen bot", none,
   fun _ => true, fun _ => true, fun _ => true, fun _ => some ["900"],
   fun _ _ _ => some ["901"], fun s => s.length, 0,
   some [.jobj [("view_count", .jint 1)], .jobj [("retweet_count", .jint 2)]]⟩

/-- The engagement environment of the C4 witness, first part: one
candidate tweet 7, not yet interacted, which the LLM decides to like. -/
def envC4a : TwitterEnv :=
  ⟨false, ["bob"], fun hs => hs,
   fun h => if h == "bob" then some [⟨"7", "hi", "bob"⟩] else none,
   false, "degen bot",
   some "```json\n[\x7b\"tweet_id\": \"7\", \"action\": \"like\"\x7d]\n```",
   fun _ => true, fun _ => true, fun _ => true,
   fun _ => some ["900"], fun _ _ _ => some ["901"], fun s => s.length, 0, none⟩

/-- The engagement environment of the C4 witness, second part: the only
candidate tweet 5 is already interacted and the LLM returns one noop
decision. -/
def envC4b : TwitterEnv :=
  ⟨false, ["bob"], fun hs => hs,
   fun h => if h == "bob" then some [⟨"5", "hi", "bob"⟩] else none,
   false, "degen bot",
   some "```json\n[\x7b\"action\": \"none\"\x7d]\n```",
   fun _ => true, fun _ => true, fun _ => true,
   fun _ => some ["900"], fun _ _ _ => some ["901"], fun s => s.length, 0, none⟩

/-- The persisted store of the C4 witness: tweet 5 already interacted. -/
def kvC4 : Kv := [("interacted_tweet_ids", "[5]")]

/-- The engagement environment of the C10 scenario: the LLM decides to
follow on tweet 111 by alice. -/
def envC10 : TwitterEnv :=
  envScenario "```json\n[\x7b\"tweet_id\": \"111\", \"action\": \"follow\"\x7d]\n```"

/- ## Helper lemmas -/

/-- A successful subscription witnesses that the value is a dict. -/
theorem pyGetItem_ok_jobj {v : JsonVal} {k : String} {w : JsonVal}
    (h : pyGetItem v k = .ok w) : ∃ fs, v = JsonVal.jobj fs := by
  cases v <;> first
    | exact ⟨_, rfl⟩
    | simp [pyGetItem] at h

/-- `_build_safe_tx_hash` never touches the state. -/
theorem build_safe_tx_hash_state (env : ChainEnv) (to_address : String)
    (value : Int) (data : List Nat) (st : St) :
    (_build_safe_tx_hash env to_address value data st).2 = st := rfl

/-- `post_action` never changes the persisted store: both of its guards
compare a dict with a string, which is always `False` in Python, and the
log line rules out non-dict token actions before the guards. -/
theorem post_action_preserves_kv (env : ChainEnv) (st : St) :
    ((post_action env st).2).kv = st.kv := by
  unfold post_action
  dsimp only
  cases hga : pyGetItem env.token_action "action" with
  | error e => simp [hga]
  | ok a =>
      obtain ⟨fs, hfs⟩ := pyGetItem_ok_jobj hga
      rw [hfs] at hga ⊢
      simp [hga, pyEqValStr]

/-- `get_tx_hash` never changes the persisted store: the only writes in
chain.py sit inside `store_heart` and the `post_action` summon branch,
and neither ever runs (missing `yield from`, dict-vs-string guards). -/
theorem get_tx_hash_preserves_kv (env : ChainEnv) (st : St) :
    ((get_tx_hash env st).2).kv = st.kv := by
  unfold get_tx_hash
  dsimp only
  split
  · rcases hpa : post_action env st with ⟨r, st1⟩
    have hkv : st1.kv = st.kv := by
      have h2 := post_action_preserves_kv env st
      rw [hpa] at h2
      exact h2
    cases r <;> exact hkv
  · split
    · rfl
    · cases hr : route_token_action env.token_action with
        | error e => rfl
        | ok t =>
            obtain ⟨action, cc, kwargs⟩ := t
            dsimp only
            split
            · rfl
            · cases hdb : (env.factoryResp cc kwargs).dataBytes with
              | none => rfl
              | some data_bytes =>
                  dsimp only
                  split
                  · rfl
                  · unfold _build_safe_tx_hash
                    cases _build_safe_tx_hash_result env env.meme_factory_address
                        _ (bytesFromHex (bytesToHex data_bytes).data) with
                    | error e => rfl
                    | ok r => dsimp only; split <;> rfl

/- ## Claims C1 and C2 -/

/-- C1: the claim states that for a heart action the token nonce is
appended to the persisted `hearted_memes` collection before the
transaction is confirmed.  The code is a slip: chain.py line 332 calls
`self.store_heart(...)` without `yield from`, so the generator is never
iterated and nothing is written.  Concretely, preparing a heart
transaction for nonce 7 succeeds but leaves the store untouched; in
general `get_tx_hash` never changes the store at all. -/
theorem C1_heart_nonce_not_persisted :
    (get_tx_hash envC1 ⟨[("hearted_memes", "[1]")], []⟩)
      = (.ok (some (hash_payload_to_hex (hash66.drop 2) 100 SAFE_GAS "factory" [1, 2])),
         ⟨[("hearted_memes", "[1]")], []⟩)
    ∧ (∀ (env : ChainEnv) (st : St), ((get_tx_hash env st).2).kv = st.kv) :=
  ⟨by rfl, get_tx_hash_preserves_kv⟩

/-- The body of `store_heart` would append the nonce if its generator
were actually iterated with `yield from`: the intent the spec records. -/
theorem store_heart_appends_when_iterated :
    (store_heart envC1 (.jint 7) ⟨[("hearted_memes", "[1]")], []⟩).2.kv
      = [("hearted_memes", "[1, 7]")] := by rfl

/-- C2: the claim states that after a confirmed summon the token record
is appended to `SummonedTokens` and the nonce to the hearted set.  The
code is a slip: chain.py lines 349 and 375 compare the whole
`token_action` dict with the strings `"summon"` / `["summon",
"heart"]`, which is always `False` in Python (and line 376 also lacks
`yield from`), so `post_action` never writes anything.  Concretely, a
confirmed summon with nonce 5 runs `post_action` and leaves the store
empty; in general `post_action` never changes the store, and a dict
never equals a string. -/
theorem C2_post_action_never_persists :
    (post_action envC2 ⟨[], []⟩) = (.ok (), ⟨[], []⟩)
    ∧ (get_tx_hash envC2 ⟨[], []⟩) = (.ok (some ""), ⟨[], []⟩)
    ∧ (∀ (fs : List (String × JsonVal)) (s : String),
        pyEqValStr (.jobj fs) s = false)
    ∧ (∀ (env : ChainEnv) (st : St), ((post_action env st).2).kv = st.kv) :=
  ⟨by rfl, by rfl, fun _ _ => rfl, post_action_preserves_kv⟩

/- ## Claim C5 -/

/-- C5: `parse_json_from_llm` tries its patterns in order and recovers
the object from the three spec inputs, and yields `None` on prose
without JSON. -/
theorem C5_parse_json_from_llm_spec :
    parse_json_from_llm "json\x7b\"a\":1\x7d" = some (.jobj [("a", .jint 1)])
    ∧ parse_json_from_llm "json(\x7b\"a\":1\x7d)" = some (.jobj [("a", .jint 1)])
    ∧ parse_json_from_llm "```json\n\x7b\"a\":1\x7d\n```" = some (.jobj [("a", .jint 1)])
    ∧ parse_json_from_llm "There is nothing to extract here, I am afraid." = none :=
  ⟨by rfl, by rfl, by rfl, by rfl⟩

/- ## Claim C3 -/

/-- C3 counterexample: on the LLM reply the claim specifies,
`json[...]`, the first extraction pattern captures the inner object
(stripping the array brackets), so the engagement pass iterates over
the dict's keys and raises `AttributeError` instead of calling the like
action and returning the done event with `[111]`: no call is traced and
no `(DONE, [111])` is produced. -/
theorem C3_claim_counterexample :
    parse_json_from_llm llmReplyPlain
      = some (.jobj [("tweet_id", .jstr "111"), ("action", .jstr "like")])
    ∧ interact_twitter (envScenario llmReplyPlain) pendingC3 ⟨[], []⟩
      = (.error "AttributeError: object has no attribute get", ⟨[], []⟩) :=
  ⟨by rfl, by rfl⟩

/-- C3 amended: with the decision list delivered inside a fenced
```json block (the format the third extraction pattern decodes as a
list), the engagement pass calls the external like action on tweet 111
and, the call succeeding, returns the done event with the
new-interacted-ids list `["111"]`. -/
theorem C3_engagement_scenario_fenced :
    interact_twitter (envScenario llmReplyFenced) pendingC3 ⟨[], []⟩
      = (.ok (EVENT_DONE, [.jstr "111"]), ⟨[], [.likeCall (.jstr "111")]⟩) := by rfl

/- ## Claim C6 -/

/-- C6: `_build_safe_tx_hash` returns `None` without raising on a wrong
response kind, a missing hash, or a hash string whose length differs
from the fixed constant; only an exact-length hash proceeds, with its
first two characters stripped and combined with the value,
`safe_tx_gas = 0`, the target address and the data. -/
theorem C6_build_safe_tx_hash_shape (env : ChainEnv) (to_address : String)
    (value : Int) (data : List Nat) (st : St) :
    ((env.safeResp to_address value data).perf ≠ Performative.state →
        _build_safe_tx_hash env to_address value data st = (.ok none, st))
    ∧ ((env.safeResp to_address value data).perf = Performative.state →
        (env.safeResp to_address value data).txHash = none →
        _build_safe_tx_hash env to_address value data st = (.ok none, st))
    ∧ (∀ h : String,
        (env.safeResp to_address value data).perf = Performative.state →
        (env.safeResp to_address value data).txHash = some (.jstr h) →
        h.length ≠ TX_HASH_LENGTH →
        _build_safe_tx_hash env to_address value data st = (.ok none, st))
    ∧ (∀ h : String,
        (env.safeResp to_address value data).perf = Performative.state →
        (env.safeResp to_address value data).txHash = some (.jstr h) →
        h.length = TX_HASH_LENGTH →
        _build_safe_tx_hash env to_address value data st =
          (.ok (some (hash_payload_to_hex (h.drop 2) value SAFE_GAS
                  to_address data)), st)) := by
  refine ⟨?_, ?_, ?_, ?_⟩
  · intro hp
    unfold _build_safe_tx_hash _build_safe_tx_hash_result
    simp [hp]
  · intro hp hh
    unfold _build_safe_tx_hash _build_safe_tx_hash_result
    simp [hp, hh]
  · intro h hp hh hlen
    unfold _build_safe_tx_hash _build_safe_tx_hash_result
    simp [hp, hh, hlen]
  · intro h hp hh hlen
    unfold _build_safe_tx_hash _build_safe_tx_hash_result
    simp [hp, hh, hlen]

/-- Witness for C6 at three concrete safe-collaborator responses. -/
theorem C6_build_safe_tx_hash_shape_witness :
    _build_safe_tx_hash envC6wrong "to" 5 [1] ⟨[], []⟩ = (.ok none, ⟨[], []⟩)
    ∧ _build_safe_tx_hash envC6short "to" 5 [1] ⟨[], []⟩ = (.ok none, ⟨[], []⟩)
    ∧ _build_safe_tx_hash envC6good "to" 5 [1] ⟨[], []⟩
        = (.ok (some (hash_payload_to_hex (hash66.drop 2) 5 SAFE_GAS "to" [1])),
           ⟨[], []⟩) :=
  ⟨(C6_build_safe_tx_hash_shape envC6wrong "to" 5 [1] ⟨[], []⟩).1 (by decide),
   (C6_build_safe_tx_hash_shape envC6short "to" 5 [1] ⟨[], []⟩).2.2.1 "0xabcdef"
     rfl rfl (by decide),
   (C6_build_safe_tx_hash_shape envC6good "to" 5 [1] ⟨[], []⟩).2.2.2 hash66
     rfl rfl (by decide)⟩

/- ## Claim C8 -/

/-- C8: for each of the five token actions, the contract callable is
`build_<action>_tx` and the keyword arguments are exactly those of the
routing table: summon passes the name, ticker and integer supply; heart
and unleash pass only `meme_nonce` (from `token_nonce`); collect and
purge pass only `meme_address` (from `token_address`). -/
theorem C8_action_routing (nm tk : JsonVal) (s : Int) (nonce addr : JsonVal) :
    route_token_action (.jobj [("action", .jstr "summon"), ("token_name", nm),
        ("token_ticker", tk), ("token_supply", .jint s)])
      = .ok (.jstr "summon", "build_summon_tx",
             [("token_name", nm), ("token_ticker", tk), ("token_supply", .jint s)])
    ∧ route_token_action (.jobj [("action", .jstr "heart"), ("token_nonce", nonce)])
      = .ok (.jstr "heart", "build_heart_tx", [("meme_nonce", nonce)])
    ∧ route_token_action (.jobj [("action", .jstr "unleash"), ("token_nonce", nonce)])
      = .ok (.jstr "unleash", "build_unleash_tx", [("meme_nonce", nonce)])
    ∧ route_token_action (.jobj [("action", .jstr "collect"), ("token_address", addr)])
      = .ok (.jstr "collect", "build_collect_tx", [("meme_address", addr)])
    ∧ route_token_action (.jobj [("action", .jstr "purge"), ("token_address", addr)])
      = .ok (.jstr "purge", "build_purge_tx", [("meme_address", addr)]) :=
  ⟨rfl, rfl, rfl, rfl, rfl⟩

/- ## Claim C9 -/

/-- C9 counterexample: a malformed non-empty stored string does not fall
back to the empty default; `json.loads` raises and the exception
reaches the caller (there is no try/except around it in `store_heart`
or `get_event`). -/
theorem C9_load_counterexample :
    loadIdList (some (some "corrupt")) = .error "json.decoder.JSONDecodeError" := by rfl

/-- C9 amended: loading returns the empty default on a store-level read
failure and on a missing or empty stored value, and decodes any
well-formed stored value; a malformed non-empty stored string raises
instead (see the counterexample). -/
theorem C9_load_resilience :
    loadIdList none = .ok (.jarr [])
    ∧ loadIdList (some none) = .ok (.jarr [])
    ∧ loadIdList (some (some "")) = .ok (.jarr [])
    ∧ (∀ (kv : Kv) (k : String),
        loadIdList (readKvKey true kv k) = .ok (.jarr []))
    ∧ (∀ (s : String) (v : JsonVal), s ≠ "" → jsonLoads s = some v →
        loadIdList (some (some s)) = .ok v) := by
  refine ⟨by rfl, by rfl, by rfl, fun kv k => by rfl, ?_⟩
  intro s v hne hl
  unfold loadIdList
  have hbeq : (s == "") = false := beq_eq_false_iff_ne.mpr hne
  simp [hbeq, hl]

/-- Witness for C9 at a failing store and at a well-formed stored
list. -/
theorem C9_load_resilience_witness :
    loadIdList (readKvKey true [] "hearted_memes") = .ok (.jarr [])
    ∧ loadIdList (some (some "[4]")) = .ok (.jarr [.jint 4]) :=
  ⟨C9_load_resilience.2.2.2.1 [] "hearted_memes",
   C9_load_resilience.2.2.2.2 "[4]" (.jarr [.jint 4]) (by decide) (by rfl)⟩

/- ## Claim C7 -/

/-- A counter whose stored value is an integer scores as that integer
(the `or 0` guard only replaces falsy values, and `int(0) = 0`). -/
theorem counterOf_jint (key : String) (x : Int) (fs : List (String × JsonVal))
    (h : List.lookup key fs = some (.jint x)) :
    counterOf (.jobj fs) key = .ok x := by
  simp only [counterOf, pyDotGetD, h, Option.getD_some]
  by_cases hx : x = 0
  · subst hx
    simp [pyToInt]
  · have ht : pyTruthy (.jint x) = true := by
      simp [pyTruthy]
      exact hx
    rw [ht]
    simp [pyToInt]

/-- C7 counterexample: a reply whose `view_count` is the non-numeric
string "lots" does not coerce to 0; `int("lots")` raises `ValueError`
and the whole ranking fails. -/
theorem C7_claim_counterexample :
    get_feedback envC7bad stC7
      = (.error "ValueError: invalid literal for int", stC7) := by rfl

/-- C7 amended: each reply scores `views + 3*retweets + 5*quotes`;
missing and falsy (null / empty-string) counters coerce to 0; an empty
reply set yields the empty list, not an error; a non-empty reply set
whose scores all compute is returned re-ordered by descending score and
truncated to the top 10.  (A non-numeric string counter instead raises,
see the counterexample.) -/
theorem C7_feedback_ranker :
    (∀ (v r q : Int),
        feedbackScore (.jobj [("view_count", .jint v), ("retweet_count", .jint r),
          ("quote_count", .jint q)]) = .ok (v + 3 * r + 5 * q))
    ∧ feedbackScore (.jobj []) = .ok 0
    ∧ feedbackScore (.jobj [("view_count", .jnull), ("retweet_count", .jstr "")])
        = .ok 0
    ∧ (∀ (env : TwitterEnv) (st : St) (lt : JsonVal) (tws : List JsonVal)
        (tid : JsonVal),
        get_tweets_from_db env st.kv = tws → tws.getLast? = some lt →
        pyGetItem lt "tweet_id" = .ok tid →
        env.searchResult = some [] →
        get_feedback env st = (.ok (some []), st))
    ∧ (∀ (env : TwitterEnv) (st : St) (lt : JsonVal) (tws : List JsonVal)
        (tid : JsonVal) (fb : List JsonVal) (scored : List (Int × JsonVal)),
        get_tweets_from_db env st.kv = tws → tws.getLast? = some lt →
        pyGetItem lt "tweet_id" = .ok tid →
        env.searchResult = some fb → fb ≠ [] →
        scoreAll fb = .ok scored →
        get_feedback env st
          = (.ok (some (((sortDescStable scored).map (·.2)).take 10)), st))
    ∧ (∀ scored : List (Int × JsonVal),
        List.Sorted scoreGE (sortDescStable scored)
          ∧ List.Perm (sortDescStable scored) scored) := by
  refine ⟨?_, by rfl, by rfl, ?_, ?_, ?_⟩
  · intro v r q
    have h1 := counterOf_jint "view_count" v
      [("view_count", .jint v), ("retweet_count", .jint r), ("quote_count", .jint q)]
      (by rfl)
    have h2 := counterOf_jint "retweet_count" r
      [("view_count", .jint v), ("retweet_count", .jint r), ("quote_count", .jint q)]
      (by rfl)
    have h3 := counterOf_jint "quote_count" q
      [("view_count", .jint v), ("retweet_count", .jint r), ("quote_count", .jint q)]
      (by rfl)
    simp [feedbackScore, h1, h2, h3]
  · intro env st lt tws tid hdb hlast hgi hsr
    unfold get_feedback
    dsimp only
    rw [hdb]
    have hne : tws.isEmpty = false := by
      cases tws
      · simp at hlast
      · rfl
    simp [hne, hlast, hgi, hsr]
  · intro env st lt tws tid fb scored hdb hlast hgi hsr hfb hscored
    unfold get_feedback
    dsimp only
    rw [hdb]
    have hne : tws.isEmpty = false := by
      cases tws
      · simp at hlast
      · rfl
    cases fb with
    | nil => exact absurd rfl hfb
    | cons f fs =>
        simp [hne, hlast, hgi, hsr, rank_feedback, hscored]
  · intro scored
    exact ⟨List.sorted_insertionSort scoreGE scored,
           List.perm_insertionSort scoreGE scored⟩

/-- Witness for C7: the empty reply set yields the empty ranking, and
the two-reply set is re-ordered by descending score (6 before 1). -/
theorem C7_feedback_ranker_witness :
    get_feedback envC7good stC7
      = (.ok (some [.jobj [("retweet_count", .jint 2)],
                    .jobj [("view_count", .jint 1)]]), stC7) := by
  have h := C7_feedback_ranker.2.2.2.2.1 envC7good stC7
    (.jobj [("tweet_id", .jstr "1")]) [.jobj [("tweet_id", .jstr "1")]]
    (.jstr "1")
    [.jobj [("view_count", .jint 1)], .jobj [("retweet_count", .jint 2)]]
    [(1, .jobj [("view_count", .jint 1)]), (6, .jobj [("retweet_count", .jint 2)])]
    (by rfl) (by rfl) (by rfl) (by rfl) (List.cons_ne_nil _ _) (by rfl)
  exact h.trans (by rfl)

/- ## Loop lemmas for the engagement dedup claims -/

/-- Splitting membership in a one-element extension of a trace. -/
theorem mem_append_single {c x : ExtCall} {tr : List ExtCall}
    (h : c ∈ tr ++ [x]) : c ∈ tr ∨ c = x := by
  rcases List.mem_append.mp h with h1 | h1
  · exact Or.inl h1
  · exact Or.inr (List.mem_singleton.mp h1)

/-- `post_tweet` always succeeds in the model and extends the trace by
exactly its post call. -/
theorem post_tweet_ok (env : TwitterEnv) (ts : List JsonVal) (store : Bool)
    (st : St) :
    ∃ r st1, post_tweet env ts store st = (.ok r, st1)
      ∧ st1.trace = st.trace ++ [.postCall ts] := by
  unfold post_tweet
  cases hp : env.postResult ts with
  | none => exact ⟨none, _, rfl, rfl⟩
  | some ids =>
      cases ids with
      | nil => exact ⟨none, _, rfl, rfl⟩
      | cons id0 rest =>
          cases store
          · exact ⟨_, _, rfl, rfl⟩
          · exact ⟨_, _, rfl, rfl⟩

/-- Every external call `interactStep` adds to the trace acts only on
tweet ids that are keys of the pending map. -/
theorem interactStep_mem (env : TwitterEnv) (pending : List (String × PendingTweet))
    (e : JsonVal) (acc : List JsonVal) (st : St) (c : ExtCall)
    (hc : c ∈ ((interactStep env pending e acc st).2).trace) :
    c ∈ st.trace ∨ ∀ s ∈ callTweetTargets c, s ∈ pendingKeys pending := by
  unfold interactStep at hc
  cases h1 : pyDotGet e "tweet_id" with
  | error err => rw [h1] at hc; exact Or.inl hc
  | ok tweet_id =>
  rw [h1] at hc
  cases h2 : pyDotGet e "action" with
  | error err => rw [h2] at hc; exact Or.inl hc
  | ok action =>
  rw [h2] at hc
  cases h3 : pyDotGet e "text" with
  | error err => rw [h3] at hc; exact Or.inl hc
  | ok text =>
  rw [h3] at hc
  dsimp only at hc
  by_cases hnone : pyEqValStr action "none" = true
  · rw [if_pos hnone] at hc; exact Or.inl hc
  · rw [if_neg hnone] at hc
    by_cases hskip2 : (!pyEqValStr action "tweet" &&
        !(pendingKeys pending).contains (pyStr tweet_id)) = true
    · rw [if_pos hskip2] at hc; exact Or.inl hc
    · rw [if_neg hskip2] at hc
      by_cases htw : pyEqValStr action "tweet" = true
      · rw [if_pos htw] at hc
        obtain ⟨r, st1, heq, htr⟩ := post_tweet_ok env [text] true st
        rw [heq] at hc
        dsimp only at hc
        rw [htr] at hc
        rcases mem_append_single hc with h | h
        · exact Or.inl h
        · subst h
          refine Or.inr ?_
          intro s hs
          simp [callTweetTargets] at hs
      · rw [if_neg htw] at hc
        have htw' : pyEqValStr action "tweet" = false := by
          simpa using htw
        have hcont : (pendingKeys pending).contains (pyStr tweet_id) = true := by
          rw [htw'] at hskip2
          simpa using hskip2
        have hmem : pyStr tweet_id ∈ pendingKeys pending := by
          simpa using hcont
        cases h4 : List.lookup (pyStr tweet_id) pending with
        | none => rw [h4] at hc; exact Or.inl hc
        | some pt =>
        rw [h4] at hc
        dsimp only at hc
        by_cases hlike : pyEqValStr action "like" = true
        · rw [if_pos hlike] at hc
          simp only [like_tweet] at hc
          rcases mem_append_single hc with h | h
          · exact Or.inl h
          · subst h
            refine Or.inr ?_
            intro s hs
            simp [callTweetTargets] at hs
            subst hs
            exact hmem
        · rw [if_neg hlike] at hc
          by_cases hfol : pyEqValStr action "follow" = true
          · rw [if_pos hfol] at hc
            simp only [follow_user] at hc
            rcases mem_append_single hc with h | h
            · exact Or.inl h
            · subst h
              refine Or.inr ?_
              intro s hs
              simp [callTweetTargets] at hs
              subst hs
              exact hmem
          · rw [if_neg hfol] at hc
            by_cases hrt : pyEqValStr action "retweet" = true
            · rw [if_pos hrt] at hc
              simp only [retweet] at hc
              rcases mem_append_single hc with h | h
              · exact Or.inl h
              · subst h
                refine Or.inr ?_
                intro s hs
                simp [callTweetTargets] at hs
                subst hs
                exact hmem
            · rw [if_neg hrt] at hc
              cases text with
              | jstr ts =>
                  dsimp only at hc
                  by_cases hval : (!is_tweet_valid env ts) = true
                  · rw [if_pos hval] at hc; exact Or.inl hc
                  · rw [if_neg hval] at hc
                    by_cases hrep : pyEqValStr action "reply" = true
                    · rw [if_pos hrep] at hc
                      simp only [respond_tweet] at hc
                      cases hrr : env.respondResult tweet_id (.jstr ts) false with
                      | none =>
                          rw [hrr] at hc
                          dsimp only at hc
                          rcases mem_append_single hc with h | h
                          · exact Or.inl h
                          · subst h
                            refine Or.inr ?_
                            intro s hs
                            simp [callTweetTargets] at hs
                            subst hs
                            exact hmem
                      | some ids =>
                          rw [hrr] at hc
                          dsimp only at hc
                          rcases mem_append_single hc with h | h
                          · exact Or.inl h
                          · subst h
                            refine Or.inr ?_
                            intro s hs
                            simp [callTweetTargets] at hs
                            subst hs
                            exact hmem
                    · rw [if_neg hrep] at hc
                      by_cases hq : pyEqValStr action "quote" = true
                      · rw [if_pos hq] at hc
                        simp only [respond_tweet] at hc
                        cases hrr : env.respondResult tweet_id (.jstr ts) true with
                        | none =>
                            rw [hrr] at hc
                            dsimp only at hc
                            rcases mem_append_single hc with h | h
                            · exact Or.inl h
                            · subst h
                              refine Or.inr ?_
                              intro s hs
                              simp [callTweetTargets] at hs
                              subst hs
                              exact hmem
                        | some ids =>
                            rw [hrr] at hc
                            dsimp only at hc
                            rcases mem_append_single hc with h | h
                            · exact Or.inl h
                            · subst h
                              refine Or.inr ?_
                              intro s hs
                              simp [callTweetTargets] at hs
                              subst hs
                              exact hmem
                      · rw [if_neg hq] at hc
                        exact Or.inl hc
              | jnull => exact Or.inl hc
              | jbool b => exact Or.inl hc
              | jint n => exact Or.inl hc
              | jarr xs => exact Or.inl hc
              | jobj fs => exact Or.inl hc

/-- Loop version of `interactStep_mem`. -/
theorem interactLoop_mem (env : TwitterEnv) (pending : List (String × PendingTweet))
    (entries : List JsonVal) :
    ∀ (acc : List JsonVal) (st : St) (c : ExtCall),
    c ∈ ((interactLoop env pending entries acc st).2).trace →
    c ∈ st.trace ∨ ∀ s ∈ callTweetTargets c, s ∈ pendingKeys pending := by
  induction entries with
  | nil => intro acc st c hc; exact Or.inl hc
  | cons e rest ih =>
      intro acc st c hc
      unfold interactLoop at hc
      rcases hstep : interactStep env pending e acc st with ⟨r, st1⟩
      rw [hstep] at hc
      have hstep_mem : ∀ c2, c2 ∈ st1.trace →
          c2 ∈ st.trace ∨ ∀ s ∈ callTweetTargets c2, s ∈ pendingKeys pending := by
        intro c2 hc2
        have := interactStep_mem env pending e acc st c2
        rw [hstep] at this
        exact this hc2
      cases r with
      | error err => exact hstep_mem c hc
      | ok acc1 =>
          rcases ih acc1 st1 c hc with h | h
          · exact hstep_mem c h
          · exact Or.inr h

/-- `interact_twitter` version of the trace-target invariant. -/
theorem interact_twitter_mem (env : TwitterEnv)
    (pending : List (String × PendingTweet)) (st : St) (c : ExtCall)
    (hc : c ∈ ((interact_twitter env pending st).2).trace) :
    c ∈ st.trace ∨ ∀ s ∈ callTweetTargets c, s ∈ pendingKeys pending := by
  unfold interact_twitter at hc
  cases hl : env.llm with
  | none => rw [hl] at hc; exact Or.inl hc
  | some resp =>
      rw [hl] at hc
      dsimp only at hc
      cases hp : parse_json_from_llm resp with
      | none => rw [hp] at hc; exact Or.inl hc
      | some v =>
          rw [hp] at hc
          dsimp only at hc
          by_cases ht : (!pyTruthy v) = true
          · rw [if_pos ht] at hc; exact Or.inl hc
          · rw [if_neg ht] at hc
            cases hi : pyIter v with
            | error err => rw [hi] at hc; exact Or.inl hc
            | ok entries =>
                rw [hi] at hc
                exact interactLoop_mem env pending entries [] st c hc

/-- With an empty pending map, a dict decision entry never produces an
interaction call and never changes the accumulator: only fresh
top-level posts can happen. -/
theorem interactStep_empty_pending (env : TwitterEnv)
    (fs : List (String × JsonVal)) (acc : List JsonVal) (st : St) :
    ∃ st1, interactStep env [] (.jobj fs) acc st = (.ok acc, st1)
      ∧ ∀ c ∈ st1.trace, c ∈ st.trace ∨ isInteractionCall c = false := by
  unfold interactStep
  dsimp only [pyDotGet, pyDotGetD]
  by_cases hnone : pyEqValStr ((List.lookup "action" fs).getD .jnull) "none" = true
  · rw [if_pos hnone]
    exact ⟨st, rfl, fun c hc => Or.inl hc⟩
  · rw [if_neg hnone]
    by_cases htw : pyEqValStr ((List.lookup "action" fs).getD .jnull) "tweet" = true
    · have hskip2 : ¬((!pyEqValStr ((List.lookup "action" fs).getD .jnull) "tweet" &&
          !(pendingKeys ([] : List (String × PendingTweet))).contains
            (pyStr ((List.lookup "tweet_id" fs).getD .jnull))) = true) := by
        rw [htw]
        simp
      rw [if_neg hskip2, if_pos htw]
      obtain ⟨r, st1, heq, htr⟩ :=
        post_tweet_ok env [(List.lookup "text" fs).getD .jnull] true st
      rw [heq]
      refine ⟨st1, rfl, ?_⟩
      intro c hc
      rw [htr] at hc
      rcases mem_append_single hc with h | h
      · exact Or.inl h
      · subst h
        exact Or.inr rfl
    · have htw' : pyEqValStr ((List.lookup "action" fs).getD .jnull) "tweet" = false := by
        simpa using htw
      have hskip2 : (!pyEqValStr ((List.lookup "action" fs).getD .jnull) "tweet" &&
          !(pendingKeys ([] : List (String × PendingTweet))).contains
            (pyStr ((List.lookup "tweet_id" fs).getD .jnull))) = true := by
        rw [htw']
        rfl
      rw [if_pos hskip2]
      exact ⟨st, rfl, fun c hc => Or.inl hc⟩

/-- Loop version of `interactStep_empty_pending`: the pass over dict
entries with nothing pending finishes with the done event, an unchanged
accumulator, and no interaction calls. -/
theorem interactLoop_empty_pending (env : TwitterEnv) (entries : List JsonVal) :
    ∀ (acc : List JsonVal) (st : St),
    (∀ e ∈ entries, ∃ fs, e = JsonVal.jobj fs) →
    ∃ st1, interactLoop env [] entries acc st = (.ok (EVENT_DONE, acc), st1)
      ∧ ∀ c ∈ st1.trace, c ∈ st.trace ∨ isInteractionCall c = false := by
  induction entries with
  | nil => intro acc st _; exact ⟨st, rfl, fun c hc => Or.inl hc⟩
  | cons e rest ih =>
      intro acc st hobj
      obtain ⟨fs, hfs⟩ := hobj e (List.mem_cons_self e rest)
      subst hfs
      obtain ⟨st1, hstep, htr1⟩ := interactStep_empty_pending env fs acc st
      obtain ⟨st2, hloop, htr2⟩ :=
        ih acc st1 (fun e2 he2 => hobj e2 (List.mem_cons_of_mem _ he2))
      refine ⟨st2, ?_, ?_⟩
      · unfold interactLoop
        rw [hstep]
        exact hloop
      · intro c hc
        rcases htr2 c hc with h | h
        · rcases htr1 c h with h2 | h2
          · exact Or.inl h2
          · exact Or.inr h2
        · exact Or.inr h

/-- When every fetched candidate is already interacted, the pending map
stays as given (nothing is added). -/
theorem buildPending_all_interacted (env : TwitterEnv) (interacted : JsonVal)
    (hs : List String) :
    ∀ acc,
    (∀ h0 ∈ hs, ∀ t ts, env.userTweets h0 = some (t :: ts) →
        ∃ n, pyIntOfString t.id = .ok n ∧ pyMemInt n interacted = .ok true) →
    buildPending env interacted hs acc = .ok acc := by
  induction hs with
  | nil => intro acc _; rfl
  | cons h0 hs' ih =>
      intro acc hall
      unfold buildPending
      cases hu : env.userTweets h0 with
      | none => exact ih acc (fun h1 hh => hall h1 (List.mem_cons_of_mem _ hh))
      | some l =>
          cases l with
          | nil => exact ih acc (fun h1 hh => hall h1 (List.mem_cons_of_mem _ hh))
          | cons t ts =>
              obtain ⟨n, hn, hmem⟩ := hall h0 (List.mem_cons_self _ _) t ts hu
              dsimp only
              rw [hn]
              dsimp only
              rw [hmem]
              exact ih acc (fun h1 hh => hall h1 (List.mem_cons_of_mem _ hh))

/-- Keys after a Python dict assignment. -/
theorem dictSet_keys (k0 : String) (v : PendingTweet) (k : String) :
    ∀ acc : List (String × PendingTweet),
    k ∈ pendingKeys (dictSet acc k0 v) → k = k0 ∨ k ∈ pendingKeys acc := by
  intro acc
  induction acc with
  | nil =>
      intro h
      simp [dictSet, pendingKeys] at h
      exact Or.inl h
  | cons p rest ih =>
      obtain ⟨k1, v1⟩ := p
      intro h
      by_cases he : (k1 == k0) = true
      · simp [dictSet, he, pendingKeys] at h
        rcases h with h | h
        · exact Or.inl h
        · exact Or.inr (by simp [pendingKeys]; exact Or.inr h)
      · simp only [dictSet, he, if_false, Bool.false_eq_true] at h
        simp only [pendingKeys, List.map_cons, List.mem_cons] at h
        rcases h with h | h
        · subst h
          refine Or.inr ?_
          simp [pendingKeys]
        · rcases ih h with h2 | h2
          · exact Or.inl h2
          · refine Or.inr ?_
            simp [pendingKeys] at h2 ⊢
            exact Or.inr h2

/-- Every key the candidate-collection loop adds to the pending map
belongs to a tweet whose integer id is not in the interacted ledger. -/
theorem buildPending_keys (env : TwitterEnv) (interacted : JsonVal)
    (hs : List String) :
    ∀ acc pd, buildPending env interacted hs acc = .ok pd →
    ∀ k ∈ pendingKeys pd, k ∈ pendingKeys acc ∨
      ∃ m, pyIntOfString k = .ok m ∧ pyMemInt m interacted = .ok false := by
  induction hs with
  | nil =>
      intro acc pd h k hk
      unfold buildPending at h
      injection h with h2
      subst h2
      exact Or.inl hk
  | cons h0 hs' ih =>
      intro acc pd h k hk
      unfold buildPending at h
      cases hu : env.userTweets h0 with
      | none =>
          rw [hu] at h
          exact ih acc pd h k hk
      | some l =>
          rw [hu] at h
          cases l with
          | nil => exact ih acc pd h k hk
          | cons t ts =>
              dsimp only at h
              cases hn : pyIntOfString t.id with
              | error e =>
                  rw [hn] at h
                  exact absurd h (by simp)
              | ok n =>
                  rw [hn] at h
                  dsimp only at h
                  cases hm : pyMemInt n interacted with
                  | error e =>
                      rw [hm] at h
                      exact absurd h (by simp)
                  | ok b =>
                      rw [hm] at h
                      cases b with
                      | true => exact ih acc pd h k hk
                      | false =>
                          rcases ih _ pd h k hk with hin | hex
                          · rcases dictSet_keys t.id _ k acc hin with h2 | h2
                            · subst h2
                              exact Or.inr ⟨n, hn, hm⟩
                            · exact Or.inl h2
                          · exact Or.inr hex

/- ## Claim C4 -/

/-- C4: dedup invariant of the engagement engine.  First part: every
tweet id targeted by an external call of an engagement pass has an
integer value outside the interacted ledger loaded at the start of the
pass — so a tweet already in `InteractedTweetIds` is never acted on.
Second part: when every fetched candidate is already interacted, the
pass finishes with the done event, performs no interaction calls, and
the interaction engine returns the empty new-interacted-ids list. -/
theorem C4_engagement_dedup :
    (∀ (env : TwitterEnv) (kv : Kv) (interacted : JsonVal) (c : ExtCall)
        (s : String) (n : Int),
        loadIdList (readKvKey env.kvReadFails kv "interacted_tweet_ids")
          = .ok interacted →
        c ∈ ((get_event env ⟨kv, []⟩).2).trace →
        s ∈ callTweetTargets c →
        pyIntOfString s = .ok n →
        pyMemInt n interacted = .ok false)
    ∧ (∀ (env : TwitterEnv) (kv : Kv) (l : List JsonVal) (resp : String)
        (es : List JsonVal),
        env.skip_engagement = false →
        loadIdList (readKvKey env.kvReadFails kv "interacted_tweet_ids")
          = .ok (.jarr l) →
        (∀ h0 ∈ env.filterSuspended env.handles, ∀ t ts,
            env.userTweets h0 = some (t :: ts) →
            ∃ n, pyIntOfString t.id = .ok n ∧ pyMemInt n (.jarr l) = .ok true) →
        env.llm = some resp →
        parse_json_from_llm resp = some (.jarr es) →
        es ≠ [] →
        (∀ e ∈ es, ∃ fs, e = JsonVal.jobj fs) →
        (get_event env ⟨kv, []⟩).1 = .ok EVENT_DONE
          ∧ (∀ c ∈ ((get_event env ⟨kv, []⟩).2).trace, isInteractionCall c = false)
          ∧ (interact_twitter env [] ⟨kv, []⟩).1 = .ok (EVENT_DONE, [])) := by
  constructor
  · intro env kv interacted c s n hload hc hs hn
    by_cases hskip : env.skip_engagement = true
    · have hsd : (get_event env ⟨kv, []⟩).2 = ⟨kv, []⟩ := by
        unfold get_event
        rw [if_pos hskip]
      rw [hsd] at hc
      simp at hc
    · unfold get_event at hc
      rw [if_neg hskip] at hc
      dsimp only at hc
      rw [hload] at hc
      dsimp only at hc
      cases hbp : buildPending env interacted (env.filterSuspended env.handles) []
          with
      | error e =>
          rw [hbp] at hc
          simp at hc
      | ok pending =>
          rw [hbp] at hc
          dsimp only at hc
          rcases hit : interact_twitter env pending ⟨kv, []⟩ with ⟨r, st1⟩
          rw [hit] at hc
          have hmem1 : ∀ c2 ∈ st1.trace,
              ∀ s2 ∈ callTweetTargets c2, s2 ∈ pendingKeys pending := by
            intro c2 hc2
            have h2 := interact_twitter_mem env pending ⟨kv, []⟩ c2
            rw [hit] at h2
            rcases h2 hc2 with h3 | h3
            · simp at h3
            · exact h3
          have hc1 : c ∈ st1.trace := by
            cases r with
            | error e => exact hc
            | ok pr =>
                obtain ⟨event, newIds⟩ := pr
                dsimp only at hc
                by_cases hev : (event == EVENT_DONE) = true
                · rw [if_pos hev] at hc
                  cases interacted <;> exact hc
                · rw [if_neg hev] at hc
                  exact hc
          have hkey : s ∈ pendingKeys pending := hmem1 c hc1 s hs
          rcases buildPending_keys env interacted _ [] pending hbp s hkey
              with h2 | ⟨m, hm1, hm2⟩
          · simp [pendingKeys] at h2
          · rw [hn] at hm1
            injection hm1 with h3
            rw [h3]
            exact hm2
  · intro env kv l resp es hskip hload hall hllm hparse hne hobj
    have hbp : buildPending env (.jarr l) (env.filterSuspended env.handles) []
        = .ok [] :=
      buildPending_all_interacted env (.jarr l) _ [] hall
    obtain ⟨st1, hloop, htr⟩ := interactLoop_empty_pending env es [] ⟨kv, []⟩ hobj
    have hit : interact_twitter env [] ⟨kv, []⟩ = (.ok (EVENT_DONE, []), st1) := by
      unfold interact_twitter
      rw [hllm]
      dsimp only
      rw [hparse]
      dsimp only
      have htruthy : (!pyTruthy (.jarr es)) = false := by
        cases es with
        | nil => exact absurd rfl hne
        | cons a as => rfl
      rw [htruthy, if_neg (by simp)]
      exact hloop
    have hge : get_event env ⟨kv, []⟩
        = (.ok EVENT_DONE,
           ⟨kvSet st1.kv "interacted_tweet_ids"
              (json_dumps true (.jarr (l ++ []))), st1.trace⟩) := by
      unfold get_event
      rw [if_neg (by simp [hskip])]
      dsimp only
      rw [hload]
      dsimp only
      rw [hbp]
      dsimp only
      rw [hit]
      dsimp only
      rw [if_pos (by rfl)]
    refine ⟨?_, ?_, ?_⟩
    · rw [hge]
    · intro c hc
      rw [hge] at hc
      dsimp only at hc
      rcases htr c hc with h | h
      · simp at h
      · exact h
    · rw [hit]

/-- Witness for C4: the like call on tweet 7 targets an id outside the
ledger, and with every candidate interacted the pass is done with no
interaction and empty new ids. -/
theorem C4_engagement_dedup_witness :
    pyMemInt 7 (.jarr [.jint 5]) = .ok false
    ∧ (get_event envC4b ⟨kvC4, []⟩).1 = .ok EVENT_DONE
    ∧ (interact_twitter envC4b [] ⟨kvC4, []⟩).1 = .ok (EVENT_DONE, []) := by
  have htrace : ((get_event envC4a ⟨kvC4, []⟩).2).trace
      = [.likeCall (.jstr "7")] := by rfl
  have h1 := C4_engagement_dedup.1 envC4a kvC4 (.jarr [.jint 5])
    (.likeCall (.jstr "7")) "7" 7 (by rfl)
    (by rw [htrace]; exact List.mem_singleton.mpr rfl)
    (List.mem_singleton.mpr rfl) (by rfl)
  have h2 := C4_engagement_dedup.2 envC4b kvC4 [.jint 5]
    "```json\n[\x7b\"action\": \"none\"\x7d]\n```"
    [.jobj [("action", .jstr "none")]]
    rfl (by rfl)
    (by
      intro h0 hh t ts heq
      have hb : h0 = "bob" := by simpa [envC4b] using hh
      subst hb
      have heq2 : some [(⟨"5", "hi", "bob"⟩ : FetchedTweet)] = some (t :: ts) := heq
      have heq3 : [(⟨"5", "hi", "bob"⟩ : FetchedTweet)] = t :: ts := by
        injection heq2
      have ht : t = ⟨"5", "hi", "bob"⟩ := by
        injection heq3 with h4 h5
        exact h4.symm
      subst ht
      exact ⟨5, by rfl, by rfl⟩)
    rfl (by rfl) (List.cons_ne_nil _ _)
    (by
      intro e he
      simp at he
      subst he
      exact ⟨_, rfl⟩)
  exact ⟨h1, h2.1, h2.2.2⟩

/- ## Claim C10 -/

/-- C10: for a follow decision, the engagement pass forwards the
decision's TWEET id as the user id of the external follow call — the
argument of every follow call is a pending-tweets key, never the
author's handle; concretely, with pending tweet 111 by alice the
traced call is a follow of "111", not of "alice". -/
theorem C10_follow_passes_tweet_id :
    (∀ (env : TwitterEnv) (pending : List (String × PendingTweet))
        (entries acc : List JsonVal) (st : St) (u : JsonVal),
        st.trace = [] →
        ExtCall.followCall u ∈ ((interactLoop env pending entries acc st).2).trace →
        pyStr u ∈ pendingKeys pending)
    ∧ interact_twitter envC10 pendingC3 ⟨[], []⟩
        = (.ok (EVENT_DONE, [.jstr "111"]),
           ⟨[], [.followCall (.jstr "111")]⟩) := by
  constructor
  · intro env pending entries acc st u htr hmem
    rcases interactLoop_mem env pending entries acc st (.followCall u) hmem
        with h | h
    · rw [htr] at h
      simp at h
    · exact h (pyStr u) (by simp [callTweetTargets])
  · rfl

/-- Witness for C10: the follow argument "111" (the tweet id) is a
pending-tweets key. -/
theorem C10_follow_passes_tweet_id_witness :
    pyStr (.jstr "111") ∈ pendingKeys pendingC3 := by
  have htrace : ((interactLoop envC10 pendingC3
      [.jobj [("tweet_id", .jstr "111"), ("action", .jstr "follow")]] []
      ⟨[], []⟩).2).trace = [.followCall (.jstr "111")] := by rfl
  exact C10_follow_passes_tweet_id.1 envC10 pendingC3
    [.jobj [("tweet_id", .jstr "111"), ("action", .jstr "follow")]] [] ⟨[], []⟩
    (.jstr "111") rfl (by rw [htrace]; exact List.mem_singleton.mpr rfl)

end Memeo
